import Mathlib

/-!
Verification of the config-model compiler pipeline
(`pkg/compiler/compiler.go` of the `config-models` repository).

The pipeline is embedded shallowly: Go structs become Lean structures,
the pure argument-assembly and string-processing helpers become Lean
functions, and the effectful `Compile` orchestration becomes a pure
function from an environment (the outcomes of every filesystem read and
external-process invocation) to a trace recording which stages ran,
which dictionary was built, and the final result.  Go byte strings are
modelled as Lean `String`s (the contents involved are ASCII); the
first-line extraction of the VERSION file is modelled on `List Char`,
mirroring `strings.ReplaceAll(v, "\r\n", "\n")` followed by
`strings.Split(_, "\n")[0]`.
-/

namespace ConfigModels

/-- One module descriptor of the manifest.  Modelled from the spec:
the `MetaData` / module-descriptor structs live in a metadata file that
is not part of the sources at hand; the fields are exactly those read
by `compiler.go` (`module.Name`, `module.Revision`,
`module.Organization`, `module.YangFile`) and the spec's
"ModuleDescriptor — one schema submodule: name, revision, organization,
source-file name". -/
structure ModuleDescriptor where
  name : String
  revision : String
  organization : String
  yangFile : String
  deriving DecidableEq, Repr

/-- The manifest record.  Modelled from the spec: the struct itself is
declared outside the sources at hand; the fields are exactly those read
by `compiler.go` (`Name`, `Version`, `GoPackage`, `LintModel`,
`GetStateMode`, `Modules`) and the spec's "Metadata — model name,
semantic version, target package identifier, lint-enable flag,
state-retrieval mode, ordered sequence of ModuleDescriptor". -/
structure MetaData where
  name : String
  version : String
  goPackage : String
  lintModel : Bool
  getStateMode : Nat
  modules : List ModuleDescriptor
  deriving DecidableEq, Repr

/-- The `gnmi.ModelData` triple (name, version, organization) built per
module in `loadModelMetaData`. -/
structure ModelData where
  name : String
  version : String
  organization : String
  deriving DecidableEq, Repr

/-- Entries of `api.ReadOnlyPath` are opaque to the pipeline: it never
constructs or inspects one, only carries the (nil) sequence through. -/
structure ReadOnlyPath where
  path : String
  deriving DecidableEq, Repr

/-- Entries of `api.ReadWritePath`, likewise opaque to the pipeline. -/
structure ReadWritePath where
  path : String
  deriving DecidableEq, Repr

/-- The `api.ModelInfo` record as populated by `loadModelMetaData`.
Fields the Go struct literal leaves unset take the zero values of Go:
`""` for strings, `nil` (here `[]`) for slices. -/
structure ModelInfo where
  name : String
  version : String
  modelData : List ModelData
  getStateMode : Nat
  module : String
  readOnlyPath : List ReadOnlyPath
  readWritePath : List ReadWritePath
  deriving DecidableEq, Repr

/-- The `Dictionary` rendering context (`compiler.go`, type
`Dictionary`). -/
structure Dictionary where
  name : String
  version : String
  pluginVersion : String
  goPackage : String
  modelData : List ModelData
  module : String
  getStateMode : Nat
  readOnlyPath : List ReadOnlyPath
  readWritePath : List ReadWritePath
  deriving DecidableEq, Repr

/-- The `filepath.Join` primitive restricted to the use in
`compiler.go`: joining already-clean, non-empty relative components
with a separator. -/
def filepathJoin (a b : String) : String := a ++ "/" ++ b

/-- The body of `loadModelMetaData` after `LoadMetaData` succeeded:
projects the manifest's modules into `gnmi.ModelData` triples
(name, version ← revision, organization) and builds the `api.ModelInfo`
literal, whose `Module`, `ReadOnlyPath` and `ReadWritePath` fields are
left at their zero values. -/
def loadModelMetaData (md : MetaData) : ModelInfo :=
  { name := md.name
    version := md.version
    modelData := md.modules.map fun m =>
      { name := m.name, version := m.revision, organization := m.organization }
    getStateMode := md.getStateMode
    module := ""
    readOnlyPath := []
    readWritePath := [] }

/-- The call `strings.ReplaceAll(v, "\r\n", "\n")` on the character
sequence. -/
def replaceCRLF : List Char → List Char
  | [] => []
  | '\r' :: '\n' :: rest => '\n' :: replaceCRLF rest
  | c :: rest => c :: replaceCRLF rest

/-- The expression `strings.Split(v, "\n")[0]`: the characters before
the first newline (the whole string when it has none). -/
def firstLine : List Char → List Char
  | [] => []
  | '\n' :: _ => []
  | c :: rest => c :: firstLine rest

set_option linter.unusedVariables false in
/-- The function `loadPluginVersion`.  `fileRead` is the outcome of
`ioutil.ReadFile(path/VERSION)`: `some contents` on success, `none` on
error (in which case the `data` slice is nil, i.e. the empty string).
`prev` is the prior value of the `pluginVersion` field (`""` at the
start of a compile).  Returns the final field value and whether the
read error is handed back to the caller.  Note the faithful wart: the
`"1.0.0"` default assigned in the error branch (`afterDefault`) is
unconditionally overwritten by the first-line computation that
follows it, exactly as in the source. -/
def loadPluginVersion (prev : String) (fileRead : Option String) : String × Bool :=
  let afterDefault : String := if fileRead.isNone then "1.0.0" else prev
  let v : String := fileRead.getD ""
  let final : String := String.mk (firstLine (replaceCRLF v.data))
  (final, fileRead.isNone)

/-- The argument assembly of `lintModel`: fixed lint flags followed by
one schema path per manifest module, in manifest order. -/
def lintModelArgs (path : String) (md : MetaData) : List String :=
  ["--lint", "--lint-ensure-hyphenated-names", "-W", "error"] ++
    md.modules.map fun m => filepathJoin (filepathJoin path "yang") m.yangFile

/-- The argument assembly of `generateGolangBindings`: fixed generator
flags followed by the bare names returned by
`ioutil.ReadDir(path/yang)`, in listing order (the modules of the
manifest play no part here). -/
def generateGolangBindingsArgs (path : String) (yangDirListing : List String) : List String :=
  let apiDir := filepathJoin path "api"
  let apiFile := filepathJoin apiDir "generated.go"
  ["-path=" ++ path ++ "/yang",
   "-output_file=" ++ apiFile,
   "-package_name=api",
   "-generate_fakeroot",
   "--include_descriptions"] ++ yangDirListing

/-- The argument assembly of `generateModelTree`: tree-mode flags and
the output file `<model-name>.tree`, followed by one schema path per
manifest module, in manifest order. -/
def generateModelTreeArgs (path modelName : String) (md : MetaData) : List String :=
  let treeFile := filepathJoin path (modelName ++ ".tree")
  let yangDir := filepathJoin path "yang"
  ["-f", "tree", "-p", yangDir, "-o", treeFile] ++
    md.modules.map fun m => filepathJoin yangDir m.yangFile

/-- The fixed generation marker prepended by the header post-processor,
built from two string constants (the split defeats the license-header
check of the repository itself). -/
def headerMarker : String :=
  "// Code generated by YGOT. DO NOT" ++ "EDIT.\n"

/-- The content transformation performed by the header post-processor
on the binding file (the marker followed by the original contents);
in the source this is the new contents written back by the
header-insertion function called after the bindings generator. -/
def insertHeaderContent (content : String) : String :=
  headerMarker ++ content

/-- The dictionary literal built by `Compile` from the metadata, the
model info and the resolved plugin version. -/
def buildDictionary (md : MetaData) (mi : ModelInfo) (pv : String) : Dictionary :=
  { name := mi.name
    version := mi.version
    pluginVersion := pv
    goPackage := md.goPackage
    modelData := mi.modelData
    module := mi.module
    getStateMode := mi.getStateMode
    readOnlyPath := mi.readOnlyPath
    readWritePath := mi.readWritePath }

/-- The first hard failure a compile can end with, one constructor per
`return err` site of `Compile` and its stages. -/
inductive CompileError where
  | metaDataError (msg : String)
  | lintError
  | readDirError
  | generatorError
  | headerReadError
  | headerWriteError
  | treeError
  | artifactsError
  deriving DecidableEq, Repr

/-- The environment of one `Compile` call: the outcome of every
filesystem read and external-process invocation the pipeline can make,
fixed up front so that the orchestration itself is a pure function.
`metaLoad` is the result of `LoadMetaData` (declared outside the
sources at hand; only its success-or-error outcome matters here). -/
structure CompileEnv where
  path : String
  metaLoad : Except String MetaData
  versionRead : Option String
  lintOk : Bool
  yangDirListing : Option (List String)
  generatorOk : Bool
  bindingRead : Option String
  headerWriteOk : Bool
  treeOk : Bool
  artifactsOk : Bool
  deriving Repr

/-- The observable trace of one `Compile` call: the resolved plugin
version, which external invocations were made (and with which
arguments), the dictionary that was built (if any), the final contents
of the binding file after header post-processing (if reached), and the
result (`none` = success). -/
structure CompileTrace where
  pluginVersion : String := ""
  lintInvoked : Bool := false
  lintArgs : Option (List String) := none
  dictionary : Option Dictionary := none
  generatorInvoked : Bool := false
  bindingArgs : Option (List String) := none
  bindingFile : Option String := none
  treeInvoked : Bool := false
  treeArgs : Option (List String) := none
  artifactsInvoked : Bool := false
  result : Option CompileError := none
  deriving DecidableEq, Repr

/-- The `Compile` orchestration.  Stage order and short-circuiting
mirror the source: load metadata (fatal on error); resolve the plugin
version (error logged only — never fatal); lint when the manifest asks
for it (fatal on failure); build the dictionary; generate bindings
(directory listing, generator run, header rewrite — each fatal on
failure); generate the tree (fatal); render the template artifacts
(fatal). -/
def compile (env : CompileEnv) : CompileTrace :=
  match env.metaLoad with
  | .error e => { result := some (.metaDataError e) }
  | .ok md =>
    let modelInfo := loadModelMetaData md
    let pv := (loadPluginVersion "" env.versionRead).1
    let lintArgsOpt := if md.lintModel then some (lintModelArgs env.path md) else none
    if md.lintModel && !env.lintOk then
      { pluginVersion := pv, lintInvoked := true, lintArgs := lintArgsOpt,
        result := some .lintError }
    else
      let dict := buildDictionary md modelInfo pv
      let afterDict : CompileTrace :=
        { pluginVersion := pv, lintInvoked := md.lintModel, lintArgs := lintArgsOpt,
          dictionary := some dict }
      match env.yangDirListing with
      | none => { afterDict with result := some .readDirError }
      | some files =>
        let bArgs := generateGolangBindingsArgs env.path files
        if !env.generatorOk then
          { afterDict with
              generatorInvoked := true
              bindingArgs := some bArgs
              result := some .generatorError }
        else
          match env.bindingRead with
          | none =>
            { afterDict with
                generatorInvoked := true
                bindingArgs := some bArgs
                result := some .headerReadError }
          | some content =>
            if !env.headerWriteOk then
              { afterDict with
                  generatorInvoked := true
                  bindingArgs := some bArgs
                  result := some .headerWriteError }
            else
              let afterBindings :=
                { afterDict with
                    generatorInvoked := true
                    bindingArgs := some bArgs
                    bindingFile := some (insertHeaderContent content) }
              let tArgs := generateModelTreeArgs env.path modelInfo.name md
              if !env.treeOk then
                { afterBindings with
                    treeInvoked := true
                    treeArgs := some tArgs
                    result := some .treeError }
              else if !env.artifactsOk then
                { afterBindings with
                    treeInvoked := true
                    treeArgs := some tArgs
                    artifactsInvoked := true
                    result := some .artifactsError }
              else
                { afterBindings with
                    treeInvoked := true
                    treeArgs := some tArgs
                    artifactsInvoked := true
                    result := none }

/-! Sample values: a one-module manifest (the minimal model of the
end-to-end property in the spec) and compile environments around it. -/

/-- A sample manifest module descriptor. -/
def exModule : ModuleDescriptor :=
  { name := "foo", revision := "2020-01-01", organization := "org", yangFile := "foo.yang" }

/-- A sample manifest with one module and linting enabled. -/
def exMeta : MetaData :=
  { name := "testdevice"
    version := "1.0.0"
    goPackage := "testdevice"
    lintModel := true
    getStateMode := 1
    modules := [exModule] }

/-- A compile environment in which every read and every external
invocation succeeds. -/
def exEnv : CompileEnv :=
  { path := "models/testdevice"
    metaLoad := .ok exMeta
    versionRead := some "2.3.1\r\nignored"
    lintOk := true
    yangDirListing := some ["foo.yang"]
    generatorOk := true
    bindingRead := some "package api\n"
    headerWriteOk := true
    treeOk := true
    artifactsOk := true }

/-- The all-success environment with a failing linter. -/
def exEnvLintFail : CompileEnv := { exEnv with lintOk := false }

/-- The all-success environment with an empty VERSION file. -/
def exEnvBlankVersion : CompileEnv := { exEnv with versionRead := some "" }

/-- The dictionary the all-success environment produces. -/
def exDict : Dictionary := buildDictionary exMeta (loadModelMetaData exMeta) "2.3.1"

/-- The dictionary the empty-VERSION environment produces. -/
def exDictBlank : Dictionary := buildDictionary exMeta (loadModelMetaData exMeta) ""

/-! Helper lemmas shared by the claim theorems. -/

/-- In every compile whose metadata load succeeded, the trace carries
the plugin version resolved by `loadPluginVersion` from the VERSION
read, whatever the later stages did. -/
theorem compile_pluginVersion (env : CompileEnv) (md : MetaData)
    (hm : env.metaLoad = .ok md) :
    (compile env).pluginVersion = (loadPluginVersion "" env.versionRead).1 := by
  unfold compile
  rw [hm]
  dsimp only
  repeat first | rfl | split

/-- Every dictionary a compile trace carries is the one built by
`buildDictionary` from the loaded metadata, the derived model info and
the resolved plugin version. -/
theorem compile_dictionary_shape (env : CompileEnv) (md : MetaData) (d : Dictionary)
    (hm : env.metaLoad = .ok md) (h : (compile env).dictionary = some d) :
    d = buildDictionary md (loadModelMetaData md) (loadPluginVersion "" env.versionRead).1 := by
  unfold compile at h
  rw [hm] at h
  dsimp only at h
  repeat' split at h
  all_goals simp_all

/-! The claims. -/

/-- C1: the claim says a failed VERSION read resolves the plugin
version to "1.0.0" and the compile proceeds.  The code does proceed
(the read error is only logged), but the "1.0.0" default assigned in
the error branch of `loadPluginVersion` is immediately overwritten by
splitting the empty string, so the resolved version is actually "":
with a missing VERSION file the resolver yields ("", error), and an
otherwise all-success compile finishes with plugin version "". -/
theorem c1_version_default_overwritten :
    loadPluginVersion "" none = ("", true) ∧
    (compile { exEnv with versionRead := none }).result = none ∧
    (compile { exEnv with versionRead := none }).artifactsInvoked = true ∧
    (compile { exEnv with versionRead := none }).pluginVersion = "" ∧
    (compile { exEnv with versionRead := none }).pluginVersion ≠ "1.0.0" := by decide

/-- C2 (amended): the lint and tree-generator argument lists contain
exactly one module-derived positional argument per manifest module, in
manifest order; the bindings-generator argument list instead contains
one positional argument per entry of the yang-directory listing, in
listing order, independent of the module descriptors. -/
theorem c2_module_args (path modelName : String) (md : MetaData)
    (yangDirListing : List String) :
    (lintModelArgs path md).drop 4
      = md.modules.map (fun m => filepathJoin (filepathJoin path "yang") m.yangFile) ∧
    (lintModelArgs path md).length = 4 + md.modules.length ∧
    (generateModelTreeArgs path modelName md).drop 6
      = md.modules.map (fun m => filepathJoin (filepathJoin path "yang") m.yangFile) ∧
    (generateModelTreeArgs path modelName md).length = 6 + md.modules.length ∧
    (generateGolangBindingsArgs path yangDirListing).drop 5 = yangDirListing ∧
    (generateGolangBindingsArgs path yangDirListing).length = 5 + yangDirListing.length := by
  refine ⟨rfl, ?_, rfl, ?_, rfl, ?_⟩ <;>
    (simp [lintModelArgs, generateModelTreeArgs, generateGolangBindingsArgs]; omega)

/-- C2 (counterexample): for the one-module manifest `exMeta` and a
yang directory holding two files (the module plus an imported
submodule), the bindings-generator invocation carries two positional
arguments, not one per module descriptor as the claim states. -/
theorem c2_counterexample :
    ((generateGolangBindingsArgs "models/testdevice" ["extra.yang", "foo.yang"]).drop 5).length
      ≠ exMeta.modules.length := by decide

/-- C3: after the header post-processor succeeds, the binding file
holds the fixed marker immediately followed by the original content,
and its byte length is the byte length of the marker plus the byte
length of the original content. -/
theorem c3_header_content (c : String) :
    insertHeaderContent c = headerMarker ++ c ∧
    (insertHeaderContent c).utf8ByteSize = headerMarker.utf8ByteSize + c.utf8ByteSize := by
  obtain ⟨cs⟩ := c
  refine ⟨rfl, ?_⟩
  show String.utf8Len (headerMarker.data ++ cs)
      = String.utf8Len headerMarker.data + String.utf8Len cs
  exact String.utf8Len_append headerMarker.data cs

/-- C4 (counterexample): the generation marker does not contain two
newline-terminated lines — it contains exactly one newline. -/
theorem c4_counterexample : ¬ (headerMarker.data.count '\n' = 2) := by decide

/-- C4 (amended): the generation marker is a single-line comment — its
text contains exactly one newline-terminated line: one newline in
total, placed at the end, and the text opens with the comment
delimiter. -/
theorem c4_marker_single_line :
    headerMarker.data.count '\n' = 1 ∧
    headerMarker.data.getLast? = some '\n' ∧
    headerMarker.data.take 2 = ['/', '/'] := by decide

/-- C5: when linting is enabled and the lint stage fails, the compile
ends with the lint error, no dictionary is built, and neither the
bindings generator, the header rewrite, the tree generator nor the
template rendering is reached. -/
theorem c5_lint_short_circuit (env : CompileEnv) (md : MetaData)
    (hm : env.metaLoad = .ok md) (hl : md.lintModel = true) (hf : env.lintOk = false) :
    (compile env).result = some CompileError.lintError ∧
    (compile env).dictionary = none ∧
    (compile env).generatorInvoked = false ∧
    (compile env).bindingFile = none ∧
    (compile env).treeInvoked = false ∧
    (compile env).artifactsInvoked = false := by
  unfold compile
  rw [hm]
  simp [hl, hf]

/-- Witness for C5 at the concrete lint-failure environment. -/
theorem c5_lint_short_circuit_witness :
    (compile exEnvLintFail).result = some CompileError.lintError ∧
    (compile exEnvLintFail).dictionary = none ∧
    (compile exEnvLintFail).generatorInvoked = false ∧
    (compile exEnvLintFail).bindingFile = none ∧
    (compile exEnvLintFail).treeInvoked = false ∧
    (compile exEnvLintFail).artifactsInvoked = false :=
  c5_lint_short_circuit exEnvLintFail exMeta rfl rfl rfl

/-- C6: once the metadata is loaded, the lint stage runs exactly when
the lint flag of the manifest is set (with the lint argument list
assembled from the manifest), and a lint failure makes the compile
return the lint error. -/
theorem c6_lint_gating (env : CompileEnv) (md : MetaData)
    (hm : env.metaLoad = .ok md) :
    ((compile env).lintInvoked = md.lintModel) ∧
    ((compile env).lintArgs
      = if md.lintModel then some (lintModelArgs env.path md) else none) ∧
    (md.lintModel = true → env.lintOk = false →
      (compile env).result = some CompileError.lintError) := by
  refine ⟨?_, ?_, ?_⟩
  · unfold compile
    rw [hm]
    dsimp only
    repeat' split
    all_goals simp_all
  · unfold compile
    rw [hm]
    dsimp only
    repeat' split
    all_goals simp_all
  · intro hl hf
    unfold compile
    rw [hm]
    simp [hl, hf]

/-- Witness for C6 at the concrete lint-failure environment. -/
theorem c6_lint_gating_witness :
    ((compile exEnvLintFail).lintInvoked = exMeta.lintModel) ∧
    ((compile exEnvLintFail).result = some CompileError.lintError) :=
  ⟨(c6_lint_gating exEnvLintFail exMeta rfl).1,
   (c6_lint_gating exEnvLintFail exMeta rfl).2.2 rfl rfl⟩

/-- C7: a VERSION file containing "2.3.1\r\nignored" resolves to
"2.3.1" (CRLF normalized, first line taken), and an all-success
compile with that VERSION file carries plugin version "2.3.1". -/
theorem c7_crlf_first_line :
    loadPluginVersion "" (some "2.3.1\r\nignored") = ("2.3.1", false) ∧
    (compile exEnv).pluginVersion = "2.3.1" := by decide

/-- C8: dictionary construction is a pure function of the metadata,
the model info and the resolved plugin version — equal inputs give an
identical dictionary — and every dictionary field is copied from
exactly one of those inputs. -/
theorem c8_dictionary_pure (md md' : MetaData) (mi mi' : ModelInfo) (pv pv' : String)
    (h1 : md = md') (h2 : mi = mi') (h3 : pv = pv') :
    buildDictionary md mi pv = buildDictionary md' mi' pv' ∧
    (buildDictionary md mi pv).name = mi.name ∧
    (buildDictionary md mi pv).version = mi.version ∧
    (buildDictionary md mi pv).pluginVersion = pv ∧
    (buildDictionary md mi pv).goPackage = md.goPackage ∧
    (buildDictionary md mi pv).modelData = mi.modelData ∧
    (buildDictionary md mi pv).module = mi.module ∧
    (buildDictionary md mi pv).getStateMode = mi.getStateMode ∧
    (buildDictionary md mi pv).readOnlyPath = mi.readOnlyPath ∧
    (buildDictionary md mi pv).readWritePath = mi.readWritePath := by
  subst h1 h2 h3
  exact ⟨rfl, rfl, rfl, rfl, rfl, rfl, rfl, rfl, rfl, rfl⟩

/-- Witness for C8 at the sample manifest and version. -/
theorem c8_dictionary_pure_witness :
    buildDictionary exMeta (loadModelMetaData exMeta) "2.3.1"
      = buildDictionary exMeta (loadModelMetaData exMeta) "2.3.1" ∧
    (buildDictionary exMeta (loadModelMetaData exMeta) "2.3.1").name
      = (loadModelMetaData exMeta).name ∧
    (buildDictionary exMeta (loadModelMetaData exMeta) "2.3.1").version
      = (loadModelMetaData exMeta).version ∧
    (buildDictionary exMeta (loadModelMetaData exMeta) "2.3.1").pluginVersion = "2.3.1" ∧
    (buildDictionary exMeta (loadModelMetaData exMeta) "2.3.1").goPackage
      = exMeta.goPackage ∧
    (buildDictionary exMeta (loadModelMetaData exMeta) "2.3.1").modelData
      = (loadModelMetaData exMeta).modelData ∧
    (buildDictionary exMeta (loadModelMetaData exMeta) "2.3.1").module
      = (loadModelMetaData exMeta).module ∧
    (buildDictionary exMeta (loadModelMetaData exMeta) "2.3.1").getStateMode
      = (loadModelMetaData exMeta).getStateMode ∧
    (buildDictionary exMeta (loadModelMetaData exMeta) "2.3.1").readOnlyPath
      = (loadModelMetaData exMeta).readOnlyPath ∧
    (buildDictionary exMeta (loadModelMetaData exMeta) "2.3.1").readWritePath
      = (loadModelMetaData exMeta).readWritePath :=
  c8_dictionary_pure exMeta exMeta (loadModelMetaData exMeta) (loadModelMetaData exMeta)
    "2.3.1" "2.3.1" rfl rfl rfl

/-- C9: the model info built by a successful metadata load leaves the
Module, ReadOnlyPath and ReadWritePath fields unpopulated, so every
dictionary a compile builds has an empty module name and empty path
sequences. -/
theorem c9_modelinfo_unpopulated (md : MetaData) (env : CompileEnv) (d : Dictionary)
    (h : (compile env).dictionary = some d) :
    (loadModelMetaData md).module = "" ∧
    (loadModelMetaData md).readOnlyPath = [] ∧
    (loadModelMetaData md).readWritePath = [] ∧
    d.module = "" ∧ d.readOnlyPath = [] ∧ d.readWritePath = [] := by
  refine ⟨rfl, rfl, rfl, ?_, ?_, ?_⟩ <;> {
    rcases henv : env.metaLoad with e | md'
    · unfold compile at h
      rw [henv] at h
      simp at h
    · rw [compile_dictionary_shape env md' d henv h]
      rfl
  }

/-- Witness for C9 at the all-success environment and its dictionary. -/
theorem c9_modelinfo_unpopulated_witness :
    (loadModelMetaData exMeta).module = "" ∧
    (loadModelMetaData exMeta).readOnlyPath = [] ∧
    (loadModelMetaData exMeta).readWritePath = [] ∧
    exDict.module = "" ∧ exDict.readOnlyPath = [] ∧ exDict.readWritePath = [] :=
  c9_modelinfo_unpopulated exMeta exEnv exDict (by decide)

/-- C10: a VERSION file that is readable but empty or opening with a
newline makes the resolver succeed (no error handed back) with the
empty string as resolved version, and that empty version is what the
rest of the compile — including the dictionary — uses. -/
theorem c10_blank_version (s : String) (env : CompileEnv) (md : MetaData) (d : Dictionary)
    (hs : s = "" ∨ s.data.head? = some '\n')
    (hm : env.metaLoad = .ok md) (hv : env.versionRead = some s)
    (hd : (compile env).dictionary = some d) :
    loadPluginVersion "" (some s) = ("", false) ∧
    (compile env).pluginVersion = "" ∧
    d.pluginVersion = "" := by
  have hfl : firstLine (replaceCRLF s.data) = [] := by
    rcases hs with hs | hs
    · subst hs; rfl
    · cases hdata : s.data with
      | nil => rfl
      | cons c rest =>
        rw [hdata] at hs
        simp at hs
        subst hs
        rfl
  have hlpv : loadPluginVersion "" (some s) = ("", false) := by
    simp [loadPluginVersion, hfl]
  refine ⟨hlpv, ?_, ?_⟩
  · rw [compile_pluginVersion env md hm, hv, hlpv]
  · rw [compile_dictionary_shape env md d hm hd, hv, hlpv]
    rfl

/-- Witness for C10 at the empty-VERSION environment. -/
theorem c10_blank_version_witness :
    loadPluginVersion "" (some "") = ("", false) ∧
    (compile exEnvBlankVersion).pluginVersion = "" ∧
    exDictBlank.pluginVersion = "" :=
  c10_blank_version "" exEnvBlankVersion exMeta exDictBlank (Or.inl rfl) rfl rfl (by decide)

end ConfigModels
